import Mathlib

set_option autoImplicit false

/-!
Verification of the order-engine core (worker state machine, DEX router,
persistence writes, and the websocket subscription registry) against its
natural-language specification.  Definitions are shallow embeddings of the
TypeScript sources: `src/src/router/dexRouter.ts`, `src/src/worker.ts`,
`src/src/server.ts` (db helpers), `src/src/utils/solanaHelpers.ts`, and the
websocket manager module.  Token amounts are arbitrary-precision integers
(`BN` / bigint in the source), embedded as `Nat`; `BN.div` truncates, which
on non-negative operands is exactly `Nat` division.
-/

namespace OrderEngine

/-! ### Router data model — `src/src/router/dexRouter.ts` -/

/-- Venue tag, mirroring the `dex` field of the router's `Quote` type
(`'meteora' | 'raydium' | 'mock'`). -/
inductive Dex where
  | meteora
  | raydium
  | mock
  deriving DecidableEq, Repr

/-- A venue quote: the venue tag and the quoted output amount in base units
(`outAmountBn : BN` in the source). The opaque `details` payload carries no
behaviour and is omitted. -/
structure Quote where
  dex : Dex
  outAmountBn : Nat
  deriving DecidableEq, Repr

/-- The synthetic quote of `getBestQuote`'s mock / no-quotes branches:
`amountInBn.mul(new BN(9949)).div(new BN(10000))` — integer (floor)
division. -/
def mockQuote (amountInBn : Nat) : Quote :=
  { dex := Dex.mock, outAmountBn := amountInBn * 9949 / 10000 }

/-- Stable descending insertion: `q` passes every element whose amount is at
least as large, so an earlier-collected quote stays ahead of a later equal
one.  Together with `sortDesc` this reproduces the (stable, ES2019+)
`quotes.sort((a,b) => A === B ? 0 : (A > B ? -1 : 1))` call. -/
def insertDesc (q : Quote) : List Quote → List Quote
  | [] => [q]
  | y :: ys => if y.outAmountBn < q.outAmountBn then q :: y :: ys else y :: insertDesc q ys

/-- Stable descending sort of the collected quotes (see `insertDesc`). -/
def sortDesc (l : List Quote) : List Quote :=
  l.foldl (fun acc q => insertDesc q acc) []

/-- The quote list collected by `getBestQuote`: Meteora is queried first and
pushed first, then Raydium.  A venue whose quote call throws — or which is
not configured — contributes no quote (the `try { quotes.push(...) } catch`
blocks), embedded as `Except.error`. -/
def venueQuotes (mRes rRes : Except Unit Quote) : List Quote :=
  (match mRes with | Except.ok q => [q] | Except.error _ => []) ++
  (match rRes with | Except.ok q => [q] | Except.error _ => [])

/-- `getBestQuote` (dexRouter.ts:118-177): mock branch when `USE_MOCK` is
set; otherwise collect venue quotes, fall back to the synthetic quote when
none arrived, else sort descending by output amount and take the head. -/
def getBestQuote (useMock : Bool) (mRes rRes : Except Unit Quote) (amountInBn : Nat) : Quote :=
  if useMock then mockQuote amountInBn
  else
    let quotes := venueQuotes mRes rRes
    if quotes.isEmpty then mockQuote amountInBn
    else (sortDesc quotes).headD (mockQuote amountInBn)

/-! ### Persistence helpers — `src/src/server.ts` (db module) -/

/-- Association-list lookup with decidable string keys; used for `jsonb`
objects and for the subscriber registry map. -/
def alookup {α : Type} (k : String) : List (String × α) → Option α
  | [] => none
  | (k2, v) :: t => if k = k2 then some v else alookup k t

/-- A `jsonb` object, as a key-value list. -/
abbrev Jsonb := List (String × String)

/-- PostgreSQL `jsonb || jsonb` object concatenation: every key of `new` is
present with `new`'s value; keys of `old` absent from `new` are preserved. -/
def jsonbConcat (old new : Jsonb) : Jsonb :=
  old.filter (fun p => (alookup p.1 new).isNone) ++ new

/-- The persisted order row, restricted to the columns the claims are about
(`status`, `attempts`, `error`, `tx_hash`, `executed_price`,
`routing_info`). -/
structure OrderRow where
  status : String
  attempts : Nat
  error : Option String
  tx_hash : Option String
  executed_price : Option Nat
  routing_info : Jsonb
  deriving DecidableEq, Repr

/-- The options object of `updateOrderStatus`; every field is optional and
defaults to absent, exactly as in the TypeScript signature. -/
structure UpdateOpts where
  attemptsDelta : Option Nat := none
  error : Option String := none
  txHash : Option String := none
  executedPrice : Option Nat := none
  routing : Option Jsonb := none
  deriving DecidableEq, Repr

/-- `updateOrderStatus` (server.ts:290-312).  The SQL sets
`status = $2`, `attempts = COALESCE(attempts,0) + $3` with
`$3 = opts.attemptsDelta ?? 0`, unconditionally overwrites
`error = $4`, `tx_hash = $5`, `executed_price = $6` with
`opts.x ?? null`, and merges
`routing_info = COALESCE(routing_info,'{}') || $7` with
`$7 = opts.routing ?? {}`. -/
def updateOrderStatus (row : OrderRow) (status : String) (opts : UpdateOpts) : OrderRow :=
  { status := status
    attempts := row.attempts + (opts.attemptsDelta).getD 0
    error := opts.error
    tx_hash := opts.txHash
    executed_price := opts.executedPrice
    routing_info := jsonbConcat row.routing_info ((opts.routing).getD []) }

/-- `setRoutingInfo` (server.ts:314-319): the SQL is
`SET routing_info = $2::jsonb`, a wholesale overwrite of the column. -/
def setRoutingInfo (row : OrderRow) (routing : Jsonb) : OrderRow :=
  { row with routing_info := routing }

/-- A concrete row as left by the routing step of an earlier attempt. -/
def sampleRow : OrderRow :=
  { status := "routing", attempts := 0, error := none, tx_hash := none,
    executed_price := none, routing_info := [("chosen", "meteora")] }

/-! ### Event bus — websocket manager module, `publishOrderUpdate` -/

/-- `publishOrderUpdate` (wsManager:56-68): on success it resolves with the
Redis subscriber count; on a publish failure it logs and **rethrows**
(`throw e`), embedded as `Except.error`. -/
def publishOrderUpdate (busOk : Bool) (subscribersCount : Nat) : Except Unit Nat :=
  if busOk then Except.ok subscribersCount else Except.error ()

/-! ### Worker job processor — `src/src/worker.ts` -/

/-- Order lifecycle status, as published on the bus and persisted. -/
inductive Status where
  | pending
  | routing
  | building
  | submitted
  | confirmed
  | failed
  deriving DecidableEq, Repr

/-- One `updateOrderStatus` call made by the worker, recorded as the status
written and the attempts delta it carries (`opts.attemptsDelta ?? 0`):
`pending` and `routing` writes pass no options (delta 0), the `confirmed`
write passes `attemptsDelta: 0`, the `failed` write passes
`attemptsDelta: 1`. -/
structure DbWrite where
  status : Status
  attemptsDelta : Nat
  deriving DecidableEq, Repr

/-- Job completion as seen by the queue: the processor returned normally, or
it threw (letting BullMQ schedule a retry / mark the job failed). -/
inductive JobResult where
  | ok
  | thrown
  deriving DecidableEq, Repr

/-- Success/failure of each fallible external call the job processor makes,
in source order (worker.ts:30-105).  `getBestQuote` absorbs venue failures
and is total, so it carries no flag; `setRoutingOk` is the
`setRoutingInfo` persistence call (line 61), which writes `routing_info`
but no status, so it does not appear among the status writes. -/
structure JobEnv where
  pubPendingOk : Bool
  dbPendingOk : Bool
  setupOk : Bool
  pubRoutingOk : Bool
  setRoutingOk : Bool
  pubBuildingOk : Bool
  dbRoutingOk : Bool
  pubSubmittedOk : Bool
  execOk : Bool
  pubConfirmedOk : Bool
  dbConfirmedOk : Bool
  pubFailedOk : Bool
  dbFailedOk : Bool
  deriving DecidableEq, Repr

/-- What one processed job produced: the bus events published for the order
(in publish order), the `updateOrderStatus` writes performed, and whether
the processor returned or threw. -/
structure JobRun where
  events : List Status
  writes : List DbWrite
  result : JobResult
  deriving DecidableEq, Repr

/-- The inner catch of the job processor (worker.ts:99-105), entered with
whatever events and writes the run produced before the throw: it publishes
`failed` (line 102), persists `failed` with `attemptsDelta: 1` (line 103),
then rethrows — and each of those two calls can itself reject, aborting
the rest of the handler. -/
def innerCatch (e : JobEnv) (evs : List Status) (ws : List DbWrite) : JobRun :=
  if !e.pubFailedOk then ⟨evs, ws, JobResult.thrown⟩ else
  if !e.dbFailedOk then ⟨evs ++ [Status.failed], ws, JobResult.thrown⟩ else
  ⟨evs ++ [Status.failed], ws ++ [⟨Status.failed, 1⟩], JobResult.thrown⟩

/-- The worker's job processor (worker.ts:16-112).  Every `await`ed call
that rejects makes the surrounding `try` abort.  The outer catch (lines
106-111) only rethrows.  The **inner** try (lines 66-105) spans the
`submitted` publish, `executeSwap`, the `confirmed` publish and the
`confirmed` persistence write: a rejection of any of them lands in
`innerCatch`, which publishes and persists `failed` before rethrowing —
so a failing `confirmed` step produces a `failed` event (after the
already-published `confirmed`) and a `failed` write even though the swap
itself succeeded. -/
def processJob (e : JobEnv) : JobRun :=
  if !e.pubPendingOk then ⟨[], [], JobResult.thrown⟩ else
  if !e.dbPendingOk then ⟨[Status.pending], [], JobResult.thrown⟩ else
  if !e.setupOk then ⟨[Status.pending], [⟨Status.pending, 0⟩], JobResult.thrown⟩ else
  if !e.pubRoutingOk then ⟨[Status.pending], [⟨Status.pending, 0⟩], JobResult.thrown⟩ else
  if !e.setRoutingOk then
    ⟨[Status.pending, Status.routing], [⟨Status.pending, 0⟩], JobResult.thrown⟩ else
  if !e.pubBuildingOk then
    ⟨[Status.pending, Status.routing], [⟨Status.pending, 0⟩], JobResult.thrown⟩ else
  if !e.dbRoutingOk then
    ⟨[Status.pending, Status.routing, Status.building], [⟨Status.pending, 0⟩],
      JobResult.thrown⟩ else
  if !e.pubSubmittedOk then
    innerCatch e [Status.pending, Status.routing, Status.building]
      [⟨Status.pending, 0⟩, ⟨Status.routing, 0⟩] else
  if !e.execOk then
    innerCatch e [Status.pending, Status.routing, Status.building, Status.submitted]
      [⟨Status.pending, 0⟩, ⟨Status.routing, 0⟩] else
  if !e.pubConfirmedOk then
    innerCatch e [Status.pending, Status.routing, Status.building, Status.submitted]
      [⟨Status.pending, 0⟩, ⟨Status.routing, 0⟩] else
  if !e.dbConfirmedOk then
    innerCatch e
      [Status.pending, Status.routing, Status.building, Status.submitted, Status.confirmed]
      [⟨Status.pending, 0⟩, ⟨Status.routing, 0⟩] else
  ⟨[Status.pending, Status.routing, Status.building, Status.submitted, Status.confirmed],
    [⟨Status.pending, 0⟩, ⟨Status.routing, 0⟩, ⟨Status.confirmed, 0⟩], JobResult.ok⟩

/-- The full event sequence of a successful run. -/
def fullConfirmed : List Status :=
  [Status.pending, Status.routing, Status.building, Status.submitted, Status.confirmed]

/-- The full event sequence of a run whose execution step failed. -/
def fullFailed : List Status :=
  [Status.pending, Status.routing, Status.building, Status.submitted, Status.failed]

/-- All external calls the run attempts succeed (the terminal branch's pair
being the one the execution outcome selects). -/
def allStepsOk (e : JobEnv) : Bool :=
  e.pubPendingOk && e.dbPendingOk && e.setupOk && e.pubRoutingOk && e.setRoutingOk &&
  e.pubBuildingOk && e.dbRoutingOk && e.pubSubmittedOk &&
  (if e.execOk then e.pubConfirmedOk && e.dbConfirmedOk else e.pubFailedOk && e.dbFailedOk)

/-- All steps up to (excluding) the `executeSwap` call succeed. -/
def reachesExecution (e : JobEnv) : Bool :=
  e.pubPendingOk && e.dbPendingOk && e.setupOk && e.pubRoutingOk && e.setRoutingOk &&
  e.pubBuildingOk && e.dbRoutingOk && e.pubSubmittedOk

/-- Environment in which every external call succeeds. -/
def envAllOk : JobEnv :=
  ⟨true, true, true, true, true, true, true, true, true, true, true, true, true⟩

/-- Everything succeeds except the `updateOrderStatus(orderId,'routing')`
persistence write (worker.ts:63). -/
def envDbRoutingFail : JobEnv := { envAllOk with dbRoutingOk := false }

/-- Everything succeeds except the `executeSwap` call. -/
def envExecFail : JobEnv := { envAllOk with execOk := false }

/-- Everything succeeds — including `executeSwap` — except the `confirmed`
persistence write (worker.ts:90). -/
def envDbConfirmedFail : JobEnv := { envAllOk with dbConfirmedOk := false }

/-- Everything succeeds except the very first `publishOrderUpdate`
(the `pending` publish, worker.ts:33). -/
def envPubPendingFail : JobEnv := { envAllOk with pubPendingOk := false }

/-! ### Subscription registry — websocket manager module -/

/-- A live websocket connection handle. -/
abbrev Conn := Nat

/-- The manager's module state: the `subscribers` map (order id to the set
of connections, in insertion order) and the set of Redis channels the
shared subscriber connection is subscribed to. -/
structure WsState where
  subscribers : List (String × List Conn)
  redisChannels : List String
  deriving DecidableEq, Repr

/-- The Redis channel for one order: `` `order:${orderId}` ``. -/
def channelOf (orderId : String) : String := "order:" ++ orderId

/-- JS `Set.add`: appends unless already present. -/
def setInsert (ws : Conn) (s : List Conn) : List Conn :=
  if ws ∈ s then s else s ++ [ws]

/-- Replace the value stored at key `k` (JS `Map` mutation of an existing
entry). -/
def aupdate {α : Type} (k : String) (v : α) : List (String × α) → List (String × α)
  | [] => []
  | (k2, v2) :: t => if k = k2 then (k2, v) :: t else (k2, v2) :: aupdate k v t

/-- JS `Map.delete`: removes the entry with key `k`. -/
def aremove {α : Type} (k : String) : List (String × α) → List (String × α)
  | [] => []
  | (k2, v2) :: t => if k = k2 then t else (k2, v2) :: aremove k t

/-- Redis `unsubscribe(channel)`: the shared connection is no longer
subscribed to that channel. -/
def chanRemove (c : String) (l : List String) : List String :=
  l.filter (fun x => !(x == c))

/-- `subscribeSocket` (wsManager:27-38): on the first subscriber for an
order, create the entry and subscribe the upstream Redis channel
(idempotent for the channel set); otherwise add the connection to the
existing set. -/
def subscribeSocket (st : WsState) (orderId : String) (ws : Conn) : WsState :=
  match alookup orderId st.subscribers with
  | none =>
      { subscribers := st.subscribers ++ [(orderId, [ws])]
        redisChannels :=
          if channelOf orderId ∈ st.redisChannels then st.redisChannels
          else st.redisChannels ++ [channelOf orderId] }
  | some s =>
      { st with subscribers := aupdate orderId (setInsert ws s) st.subscribers }

/-- `unsubscribeSocket` (wsManager:40-54): remove the connection; when the
set becomes empty, delete the registry entry and unsubscribe the upstream
Redis channel.  Unknown order ids are a logged no-op. -/
def unsubscribeSocket (st : WsState) (orderId : String) (ws : Conn) : WsState :=
  match alookup orderId st.subscribers with
  | none => st
  | some s =>
      let s2 := s.erase ws
      if s2.isEmpty then
        { subscribers := aremove orderId st.subscribers
          redisChannels := chanRemove (channelOf orderId) st.redisChannels }
      else { st with subscribers := aupdate orderId s2 st.subscribers }

/-- The registry with no subscribers and no upstream channels. -/
def emptyWs : WsState := ⟨[], []⟩

/-! ### Swap execution — `executeSwap`, dexRouter.ts:182-334 -/

/-- The shape of `params.tokenIn` as the wrap logic discriminates it:
the WSOL mint address (no wrap needed), the literal `'SOL'` or `undefined`
(wrap native SOL into a temporary WSOL account), or any other mint. -/
inductive TokenInput where
  | wsolMint
  | nativeSol
  | otherMint
  deriving DecidableEq, Repr

/-- The fallible sub-steps of one `executeSwap` call. -/
structure SwapEnv where
  useMock : Bool
  dexMock : Bool
  tokenIn : TokenInput
  wrapOk : Bool
  swapOk : Bool
  deriving DecidableEq, Repr

/-- Observable outcome of `executeSwap`: whether it returned or threw,
whether a temporary wrapped-SOL account was created
(`cleanupWrapped` assigned), and whether the cleanup closure ran. -/
structure SwapOutcome where
  result : Except Unit Unit
  wrapCreated : Bool
  cleanupCalled : Bool
  deriving Repr

/-- The `try` block of `executeSwap` (dexRouter.ts:205-328): result of the
body together with whether `cleanupWrapped` was assigned before the exit.
If `wrapSOLAndGetCleanup` itself throws, no account exists and
`cleanupWrapped` stays `null`. -/
def executeSwapBody (e : SwapEnv) : Except Unit Unit × Bool :=
  match e.tokenIn with
  | TokenInput.wsolMint => (if e.swapOk then Except.ok () else Except.error (), false)
  | TokenInput.otherMint => (if e.swapOk then Except.ok () else Except.error (), false)
  | TokenInput.nativeSol =>
      if e.wrapOk then (if e.swapOk then Except.ok () else Except.error (), true)
      else (Except.error (), false)

/-- `executeSwap`: the mock branch returns before any wrap; otherwise the
`try` body runs and the `finally` (dexRouter.ts:329-333) invokes
`cleanupWrapped` exactly when it was assigned, on return and on throw
alike. -/
def executeSwap (e : SwapEnv) : SwapOutcome :=
  if e.useMock || e.dexMock then
    { result := Except.ok (), wrapCreated := false, cleanupCalled := false }
  else
    let body := executeSwapBody e
    { result := body.1, wrapCreated := body.2, cleanupCalled := body.2 }

/-- A real (non-mock) swap of native SOL whose venue call throws. -/
def swapThrowEnv : SwapEnv :=
  { useMock := false, dexMock := false, tokenIn := TokenInput.nativeSol,
    wrapOk := true, swapOk := false }

/-! ### Helper lemmas -/

/-- Concatenating the empty `jsonb` object keeps the row's object. -/
theorem jsonbConcat_nil (l : Jsonb) : jsonbConcat l [] = l := by
  simp [jsonbConcat, alookup]

/-- Keys absent from the right operand of `jsonb ||` keep their left value. -/
theorem alookup_jsonbConcat_of_none (old new : Jsonb) (k : String)
    (h : alookup k new = none) :
    alookup k (jsonbConcat old new) = alookup k old := by
  induction old with
  | nil => simp [jsonbConcat, alookup, h]
  | cons p t ih =>
      obtain ⟨k2, v2⟩ := p
      by_cases hk : k = k2
      · subst hk
        have hp : (alookup k new).isNone = true := by simp [h]
        simp [jsonbConcat, List.filter_cons, hp, alookup]
      · by_cases hp : (alookup k2 new).isNone
        · simpa [jsonbConcat, List.filter_cons, hp, alookup, hk] using ih
        · simpa [jsonbConcat, List.filter_cons, hp, alookup, hk] using ih

/-- Appending a fresh key to an association list makes it found. -/
theorem alookup_append_self {α : Type} (k : String) (v : α) (l : List (String × α))
    (h : alookup k l = none) : alookup k (l ++ [(k, v)]) = some v := by
  induction l with
  | nil => simp [alookup]
  | cons p t ih =>
      obtain ⟨k2, v2⟩ := p
      by_cases hk : k = k2
      · simp [alookup, hk] at h
      · simp only [alookup, List.cons_append, if_neg hk] at h ⊢
        exact ih h

/-- Removing a key that only the appended entry carries restores the list. -/
theorem aremove_append_self {α : Type} (k : String) (v : α) (l : List (String × α))
    (h : alookup k l = none) : aremove k (l ++ [(k, v)]) = l := by
  induction l with
  | nil => simp [aremove]
  | cons p t ih =>
      obtain ⟨k2, v2⟩ := p
      by_cases hk : k = k2
      · simp [alookup, hk] at h
      · simp only [alookup, if_neg hk] at h
        simp only [List.cons_append, aremove, if_neg hk, List.append_eq, ih h]

/-- Unsubscribing a channel only the appended element carries restores the
channel set. -/
theorem chanRemove_append_self (c : String) (l : List String) (h : c ∉ l) :
    chanRemove c (l ++ [c]) = l := by
  simp only [chanRemove, List.filter_append]
  have h1 : List.filter (fun x => !(x == c)) [c] = [] := by simp
  have h2 : List.filter (fun x => !(x == c)) l = l := by
    refine List.filter_eq_self.mpr ?_
    intro a ha
    simp only [Bool.not_eq_eq_eq_not, Bool.not_true, beq_eq_false_iff_ne, ne_eq]
    exact fun hac => h (hac ▸ ha)
  rw [h1, h2, List.append_nil]

/-! ### Claim theorems -/

/-- C3: for a non-empty collection of venue quotes, `getBestQuote` returns
the quote with the maximum `outAmountBn`; on a tie the quote of the
first-queried venue (Meteora, pushed before Raydium) wins, because the
sort is stable.  The selection is a pure function of the venue responses,
hence deterministic. -/
theorem c3_best_quote_selection : ∀ (m r : Quote) (a : Nat),
    getBestQuote false (Except.ok m) (Except.ok r) a =
      (if m.outAmountBn < r.outAmountBn then r else m) ∧
    (getBestQuote false (Except.ok m) (Except.ok r) a).outAmountBn =
      max m.outAmountBn r.outAmountBn := by
  intro m r a
  have hs : getBestQuote false (Except.ok m) (Except.ok r) a =
      (if m.outAmountBn < r.outAmountBn then r else m) := by
    by_cases h : m.outAmountBn < r.outAmountBn <;>
      simp [getBestQuote, venueQuotes, sortDesc, insertDesc, h]
  refine ⟨hs, ?_⟩
  rw [hs]
  by_cases h : m.outAmountBn < r.outAmountBn <;> simp [h] <;> omega

/-- C4: in simulation mode, and when zero venues contribute a quote,
`getBestQuote` returns the synthetic quote with
`outAmountBn = floor(amountIn * 9949 / 10000)` in exact integer
arithmetic; at `amountIn = 1_000_000` that is exactly `994900`. -/
theorem c4_synthetic_fallback_formula :
    (∀ (mRes rRes : Except Unit Quote) (a : Nat),
        getBestQuote true mRes rRes a = mockQuote a) ∧
    (∀ a : Nat, getBestQuote false (Except.error ()) (Except.error ()) a = mockQuote a) ∧
    (∀ a : Nat, (mockQuote a).outAmountBn = a * 9949 / 10000) ∧
    (getBestQuote false (Except.error ()) (Except.error ()) 1000000).outAmountBn = 994900 :=
  ⟨fun _ _ _ => rfl, fun _ => rfl, fun _ => rfl, rfl⟩

/-- C7: a throwing venue quote call is isolated — `getBestQuote` still
returns the surviving venue's quote, and when both venues fail it returns
the fallback quote; it is total, never failing on venue errors. -/
theorem c7_venue_failure_isolation : ∀ (m r : Quote) (a : Nat),
    getBestQuote false (Except.error ()) (Except.ok r) a = r ∧
    getBestQuote false (Except.ok m) (Except.error ()) a = m ∧
    getBestQuote false (Except.error ()) (Except.error ()) a = mockQuote a :=
  fun _ _ _ => ⟨rfl, rfl, rfl⟩

/-- C6 counterexample: `setRoutingInfo` does **not** merge — its SQL writes
`routing_info = $2::jsonb` wholesale, so a previously stored key
(`"chosen"`) absent from the new value is lost. -/
theorem c6_routing_overwrite_cex :
    alookup "chosen" sampleRow.routing_info = some "meteora" ∧
    alookup "chosen"
      (setRoutingInfo sampleRow [("estimatedOut", "994900")]).routing_info = none := by
  exact ⟨rfl, rfl⟩

/-- C6 (amended): `updateOrderStatus` merges `routing_info` — keys absent
from the supplied routing value keep their stored value — while
`setRoutingInfo` overwrites the column wholesale with the new value. -/
theorem c6_amended_merge_vs_overwrite :
    (∀ (row : OrderRow) (status : String) (opts : UpdateOpts) (k : String),
        alookup k ((opts.routing).getD []) = none →
        alookup k (updateOrderStatus row status opts).routing_info =
          alookup k row.routing_info) ∧
    (∀ (row : OrderRow) (routing : Jsonb),
        (setRoutingInfo row routing).routing_info = routing) := by
  constructor
  · intro row status opts k h
    exact alookup_jsonbConcat_of_none _ _ _ h
  · intro row routing
    rfl

/-- C6 witness: the merge branch of the amended claim evaluated at a
concrete row, options and key. -/
theorem c6_amended_witness :
    alookup "chosen" ((some [("estimatedOut", "994900")] : Option Jsonb).getD []) = none ∧
    alookup "chosen"
        (updateOrderStatus sampleRow "confirmed"
          { routing := some [("estimatedOut", "994900")] }).routing_info =
      alookup "chosen" sampleRow.routing_info :=
  ⟨by decide,
   c6_amended_merge_vs_overwrite.1 sampleRow "confirmed"
     { routing := some [("estimatedOut", "994900")] } "chosen" (by decide)⟩

/-- C10: every `updateOrderStatus` call overwrites `error`, `tx_hash` and
`executed_price` with the supplied options (NULL when omitted) and adds
`attemptsDelta ?? 0` to `attempts`; in particular the worker's `pending`
re-assertion (no options) clears `error`, `tx_hash` and `executed_price`,
preserves `attempts`, and leaves `routing_info` unchanged. -/
theorem c10_unconditional_overwrite : ∀ (row : OrderRow) (status : String) (opts : UpdateOpts),
    ((updateOrderStatus row status opts).error = opts.error ∧
     (updateOrderStatus row status opts).tx_hash = opts.txHash ∧
     (updateOrderStatus row status opts).executed_price = opts.executedPrice ∧
     (updateOrderStatus row status opts).attempts =
       row.attempts + (opts.attemptsDelta).getD 0) ∧
    updateOrderStatus row "pending" {} =
      { row with status := "pending", error := none, tx_hash := none,
                 executed_price := none } := by
  intro row status opts
  refine ⟨⟨rfl, rfl, rfl, rfl⟩, ?_⟩
  obtain ⟨s, a0, er, tx, ep, ri⟩ := row
  simp [updateOrderStatus, jsonbConcat_nil]

set_option maxHeartbeats 1000000 in
/-- C1 (amended): the published sequence is always a prefix of
`[pending, routing, building, submitted, confirmed]`, optionally extended
by one trailing `failed` event — so statuses appear in state-machine
order, are never reordered, and `pending` is never skipped (it heads
every non-empty sequence).  It ends with exactly one of
`confirmed`/`failed` when every external step the run attempts succeeds;
but a failing pre-submit step aborts the job without any terminal event,
and a failing `submitted`/`confirmed` publish or `confirmed` persistence
write is handled by the inner catch, which publishes `failed` — in the
last case after `confirmed`, so both terminals can appear. -/
theorem c1_amended_prefix_or_trailing_failed : ∀ e : JobEnv,
    ((processJob e).events = fullConfirmed.take (processJob e).events.length ∨
     (processJob e).events =
       fullConfirmed.take ((processJob e).events.length - 1) ++ [Status.failed]) ∧
    ((processJob e).events = [] ∨ (processJob e).events.head? = some Status.pending) ∧
    (allStepsOk e = true →
      (processJob e).events = if e.execOk then fullConfirmed else fullFailed) := by
  intro e
  obtain ⟨p1, p2, p3, p4, p5, p6, p7, p8, p9, p10, p11, p12, p13⟩ := e
  revert p1 p2 p3 p4 p5 p6 p7 p8 p9 p10 p11 p12 p13
  decide

/-- C1 witness: with every step succeeding, the run publishes the full
confirmed sequence. -/
theorem c1_amended_witness :
    allStepsOk envAllOk = true ∧
    (processJob envAllOk).events =
      (if envAllOk.execOk then fullConfirmed else fullFailed) :=
  ⟨by decide, (c1_amended_prefix_or_trailing_failed envAllOk).2.2 (by decide)⟩

/-- C1 counterexample: (a) when the `routing` persistence write fails
(worker.ts:63 rejects), the job aborts after publishing
`[pending, routing, building]` — the sequence ends with neither
`confirmed` nor `failed`; (b) when the `confirmed` persistence write
fails (worker.ts:90 rejects, inner catch runs), the published sequence is
`[pending, routing, building, submitted, confirmed, failed]`, which is
not a subsequence of `[pending, routing, building, submitted, confirmed]`
nor of `[pending, routing, building, submitted, failed]` — both
terminals appear. -/
theorem c1_claim_cex :
    ((processJob envDbRoutingFail).events =
       [Status.pending, Status.routing, Status.building] ∧
     (processJob envDbRoutingFail).events.getLast? = some Status.building) ∧
    ((processJob envDbConfirmedFail).events =
       [Status.pending, Status.routing, Status.building, Status.submitted,
        Status.confirmed, Status.failed] ∧
     ¬ List.Sublist (processJob envDbConfirmedFail).events fullConfirmed ∧
     ¬ List.Sublist (processJob envDbConfirmedFail).events fullFailed) := by
  decide

set_option maxHeartbeats 1000000 in
/-- C2 (amended): when `executeSwap` fails (and the failure path's own
publish and persistence calls succeed), the run publishes exactly one
`failed` event and performs exactly one `failed` status write, carrying
`attemptsDelta = 1`; no non-`failed` status write ever carries a non-zero
delta (so `pending`, `routing` and `confirmed` writes all carry 0, and
nothing increments on routing-phase failures) and every `failed` write
carries exactly 1.  However the increment is **not** exclusive to
execution failure: the inner catch performs the same `failed` write with
delta 1 when the `submitted`/`confirmed` publish or the `confirmed`
persistence write fails, even though `executeSwap` succeeded or never
ran. -/
theorem c2_amended_attempts_accounting : ∀ e : JobEnv,
    ((reachesExecution e = true ∧ e.execOk = false ∧
      e.pubFailedOk = true ∧ e.dbFailedOk = true) →
      ((processJob e).events.count Status.failed = 1 ∧
       (processJob e).writes =
         [⟨Status.pending, 0⟩, ⟨Status.routing, 0⟩, ⟨Status.failed, 1⟩])) ∧
    (∀ w ∈ (processJob e).writes, w.status ≠ Status.failed → w.attemptsDelta = 0) ∧
    (∀ w ∈ (processJob e).writes, w.status = Status.failed → w.attemptsDelta = 1) ∧
    ((reachesExecution e = true ∧ e.execOk = true ∧ e.dbConfirmedOk = false ∧
      e.pubFailedOk = true ∧ e.dbFailedOk = true) →
      (processJob e).writes =
        [⟨Status.pending, 0⟩, ⟨Status.routing, 0⟩, ⟨Status.failed, 1⟩]) := by
  intro e
  obtain ⟨p1, p2, p3, p4, p5, p6, p7, p8, p9, p10, p11, p12, p13⟩ := e
  revert p1 p2 p3 p4 p5 p6 p7 p8 p9 p10 p11 p12 p13
  decide

/-- C2 witness: the execution-failure accounting at the concrete
environment where only `executeSwap` fails. -/
theorem c2_attempts_witness :
    (processJob envExecFail).events.count Status.failed = 1 ∧
    (processJob envExecFail).writes =
      [⟨Status.pending, 0⟩, ⟨Status.routing, 0⟩, ⟨Status.failed, 1⟩] :=
  (c2_amended_attempts_accounting envExecFail).1 (by decide)

/-- C2 counterexample: with `executeSwap` succeeding but the `confirmed`
persistence write failing, the inner catch still persists `failed` with
`attemptsDelta = 1` — attempts increments on a path where the execution
step did not fail, refuting the claim's exclusivity part. -/
theorem c2_success_increment_cex :
    envDbConfirmedFail.execOk = true ∧
    (processJob envDbConfirmedFail).writes =
      [⟨Status.pending, 0⟩, ⟨Status.routing, 0⟩, ⟨Status.failed, 1⟩] ∧
    (processJob envDbConfirmedFail).events.count Status.failed = 1 := by
  decide

/-- C5 counterexample: `publishOrderUpdate` rethrows on a bus failure, and
the worker has no publish-specific catch — when the `pending` publish
fails the job throws with **no** persistence performed and no further
state transitions, refuting the claim that a publish failure never aborts
the per-order state machine. -/
theorem c5_publish_abort_cex :
    publishOrderUpdate false 0 = Except.error () ∧
    (processJob envPubPendingFail).result = JobResult.thrown ∧
    (processJob envPubPendingFail).writes = [] ∧
    (processJob envPubPendingFail).events = [] := by
  refine ⟨rfl, ?_, ?_, ?_⟩ <;> decide

set_option maxHeartbeats 1000000 in
/-- C5 (amended): a failed event-bus publish aborts the job — any failing
lifecycle publish the run reaches makes the processor throw (so the queue
retries), and a failing `pending` publish in particular leaves no
persisted write and no published event at all. -/
theorem c5_amended_publish_aborts_job : ∀ e : JobEnv,
    (((!e.pubPendingOk || !e.pubRoutingOk || !e.pubBuildingOk || !e.pubSubmittedOk ||
       (e.execOk && !e.pubConfirmedOk) || (!e.execOk && !e.pubFailedOk)) = true) →
      (processJob e).result = JobResult.thrown) ∧
    (e.pubPendingOk = false →
      (processJob e).writes = [] ∧ (processJob e).events = []) := by
  intro e
  obtain ⟨p1, p2, p3, p4, p5, p6, p7, p8, p9, p10, p11, p12, p13⟩ := e
  revert p1 p2 p3 p4 p5 p6 p7 p8 p9 p10 p11 p12 p13
  decide

/-- C5 witness: the amended claim evaluated where the `pending` publish
fails and everything else would succeed. -/
theorem c5_amended_witness :
    (processJob envPubPendingFail).result = JobResult.thrown ∧
    ((processJob envPubPendingFail).writes = [] ∧
     (processJob envPubPendingFail).events = []) :=
  ⟨(c5_amended_publish_aborts_job envPubPendingFail).1 (by decide),
   (c5_amended_publish_aborts_job envPubPendingFail).2 (by decide)⟩

/-- C8: whenever `executeSwap` creates a temporary wrapped-SOL account
(`tokenIn` is native SOL and the wrap succeeded), the `finally` block
invokes its cleanup on every exit path — on success and on throw alike. -/
theorem c8_wrap_cleanup_on_all_exits : ∀ e : SwapEnv,
    (executeSwap e).wrapCreated = true → (executeSwap e).cleanupCalled = true := by
  intro e
  obtain ⟨u, d, t, w, s⟩ := e
  cases t <;> (revert u d w s; decide)

/-- C8 witness: a native-SOL swap whose venue call throws still runs the
cleanup of the wrapped account it created. -/
theorem c8_wrap_cleanup_witness :
    (executeSwap swapThrowEnv).wrapCreated = true ∧
    (executeSwap swapThrowEnv).result = Except.error () ∧
    (executeSwap swapThrowEnv).cleanupCalled = true :=
  ⟨rfl, rfl, c8_wrap_cleanup_on_all_exits swapThrowEnv rfl⟩

/-- C9: from a state with no entry for `orderId` (and no upstream channel
for it), `subscribeSocket` followed by `unsubscribeSocket` restores the
state exactly — no residual registry entry, upstream Redis channel torn
down — and a subsequent `subscribeSocket` re-creates the entry and
re-establishes the upstream channel subscription. -/
theorem c9_subscribe_unsubscribe_roundtrip : ∀ (st : WsState) (orderId : String) (ws : Conn),
    alookup orderId st.subscribers = none →
    channelOf orderId ∉ st.redisChannels →
    (unsubscribeSocket (subscribeSocket st orderId ws) orderId ws = st ∧
     alookup orderId
       (unsubscribeSocket (subscribeSocket st orderId ws) orderId ws).subscribers = none ∧
     channelOf orderId ∉
       (unsubscribeSocket (subscribeSocket st orderId ws) orderId ws).redisChannels ∧
     alookup orderId
       (subscribeSocket (unsubscribeSocket (subscribeSocket st orderId ws) orderId ws)
         orderId ws).subscribers = some [ws] ∧
     channelOf orderId ∈
       (subscribeSocket (unsubscribeSocket (subscribeSocket st orderId ws) orderId ws)
         orderId ws).redisChannels) := by
  intro st oid ws h1 h2
  obtain ⟨subs, chans⟩ := st
  dsimp only at h1 h2
  have hsub : subscribeSocket ⟨subs, chans⟩ oid ws =
      ⟨subs ++ [(oid, [ws])], chans ++ [channelOf oid]⟩ := by
    unfold subscribeSocket
    dsimp only
    rw [h1, if_neg h2]
  have hlook : alookup oid (subs ++ [(oid, [ws])]) = some [ws] :=
    alookup_append_self _ _ _ h1
  have hunsub :
      unsubscribeSocket ⟨subs ++ [(oid, [ws])], chans ++ [channelOf oid]⟩ oid ws =
        ⟨subs, chans⟩ := by
    unfold unsubscribeSocket
    dsimp only
    rw [hlook]
    simp [List.erase_cons_head, aremove_append_self _ _ _ h1,
      chanRemove_append_self _ _ h2]
  refine ⟨?_, ?_, ?_, ?_, ?_⟩
  · rw [hsub, hunsub]
  · rw [hsub, hunsub]
    exact h1
  · rw [hsub, hunsub]
    exact h2
  · rw [hsub, hunsub, hsub]
    exact hlook
  · rw [hsub, hunsub, hsub]
    simp

/-- C9 witness: the round-trip law evaluated at the empty registry with a
concrete order id and connection. -/
theorem c9_roundtrip_witness :
    unsubscribeSocket (subscribeSocket emptyWs "o1" 7) "o1" 7 = emptyWs ∧
    alookup "o1"
      (unsubscribeSocket (subscribeSocket emptyWs "o1" 7) "o1" 7).subscribers = none ∧
    channelOf "o1" ∉
      (unsubscribeSocket (subscribeSocket emptyWs "o1" 7) "o1" 7).redisChannels ∧
    alookup "o1"
      (subscribeSocket (unsubscribeSocket (subscribeSocket emptyWs "o1" 7) "o1" 7)
        "o1" 7).subscribers = some [7] ∧
    channelOf "o1" ∈
      (subscribeSocket (unsubscribeSocket (subscribeSocket emptyWs "o1" 7) "o1" 7)
        "o1" 7).redisChannels :=
  c9_subscribe_unsubscribe_roundtrip emptyWs "o1" 7 rfl (by simp [emptyWs])

end OrderEngine
